import Mathlib

/-!
Verification development for the `ha_creality_ws` repository.

The repository ships three Lovelace card implementations for Creality
K-series 3D printers:

* `custom_components/ha-creality-ws/frontend/k_printer_card.js` — the
  dependency-free card (`KPrinterCard`), embedded below as the `KCard`
  namespace;
* `custom_components/frontend/k1c_printer_card.js` — the composite
  mushroom-based card, embedded as `K1CCardV1`;
* the second composite card revision (the unnamed source file
  `src/unnamed/part_000`), embedded as `K1CCardV2`.

JavaScript numbers are modelled as `Option ℚ`, where `none` stands for a
non-finite value (`NaN` or an infinity) and `some q` for a finite value.
The sensor states handled by these cards are plain decimal strings, so
rationals are an exact carrier for every finite value that can occur.
JavaScript string case mapping is modelled on the ASCII range, which covers
every status / state string the cards compare against.
-/

/-! ## A model of the JavaScript values and runtime helpers the cards use -/

/-- A JavaScript value as it can reach the card helpers: `undefined`,
`null`, a string, a (possibly non-finite) number, or a boolean. -/
inductive JSVal where
  | undef : JSVal
  | null : JSVal
  | str : String → JSVal
  | num : Option ℚ → JSVal
  | bool : Bool → JSVal
deriving DecidableEq, Repr

/-- ASCII case mapping of one character, as `String.prototype.toLowerCase`
acts on the code points the cards compare against. -/
def jsCharToLower (c : Char) : Char :=
  if 65 ≤ c.toNat ∧ c.toNat ≤ 90 then Char.ofNat (c.toNat + 32) else c

/-- ASCII case mapping of one character, as `String.prototype.toUpperCase`
acts on the code points the cards compare against. -/
def jsCharToUpper (c : Char) : Char :=
  if 97 ≤ c.toNat ∧ c.toNat ≤ 122 then Char.ofNat (c.toNat - 32) else c

/-- JS `s.toLowerCase()` on the ASCII range. -/
def jsToLowerCase (s : String) : String :=
  String.mk (s.data.map jsCharToLower)

/-- JS `s.toUpperCase()` on the ASCII range. -/
def jsToUpperCase (s : String) : String :=
  String.mk (s.data.map jsCharToUpper)

/-- Decimal value of a digit list, `none` if a non-digit occurs. -/
def digitsVal : List Char → Option ℕ
  | [] => some 0
  | c :: cs =>
      if c.isDigit then
        (digitsVal cs).map (fun v => (c.toNat - 48) * 10 ^ cs.length + v)
      else
        none

/-- Leading- and trailing-whitespace removal, as `Number(·)` applies to its
string argument before parsing. -/
def jsTrim (cs : List Char) : List Char :=
  ((cs.dropWhile Char.isWhitespace).reverse.dropWhile Char.isWhitespace).reverse

/-- JS `Number(s)` for a string `s`, on the decimal-literal subset the sensor
states use: optional sign, digits with an optional fraction part.  The
empty / all-whitespace string converts to `0`; anything else that is not a
plain decimal literal (including `Infinity` and exponent or hex forms)
is modelled as `none`, i.e. not a finite number. -/
def jsNumber (s : String) : Option ℚ :=
  let t := jsTrim s.data
  if t = [] then some 0
  else
    let (sign, cs) : ℚ × List Char :=
      match t with
      | '+' :: r => (1, r)
      | '-' :: r => (-1, r)
      | r => (1, r)
    let ip := cs.takeWhile (fun c => c ≠ '.')
    match cs.dropWhile (fun c => c ≠ '.') with
    | [] =>
        match digitsVal ip with
        | some v => if ip = [] then none else some (sign * v)
        | none => none
    | _ :: fp =>
        match digitsVal ip, digitsVal fp with
        | some iv, some fv =>
            if ip = [] ∧ fp = [] then none
            else if fp.all (fun c => c ≠ '.') then
              some (sign * ((iv : ℚ) + (fv : ℚ) / 10 ^ fp.length))
            else none
        | _, _ => none

/-- JS `Number(x)` for a general value: `undefined → NaN`, `null → 0`,
booleans to `0`/`1`, numbers unchanged, strings via `jsNumber`. -/
def jsToNumber : JSVal → Option ℚ
  | .undef => none
  | .null => some 0
  | .str s => jsNumber s
  | .num q => q
  | .bool b => some (if b then 1 else 0)

/-- JS `x || d` for numbers: `NaN` and `0` are falsy and yield `d`. -/
def jsOrNum (x : Option ℚ) (d : ℚ) : ℚ :=
  match x with
  | none => d
  | some v => if v = 0 then d else v

/-- JS `a || b` for strings: the empty string is falsy. -/
def jsOrStr (a b : String) : String :=
  if a = "" then b else a

/-- JS `Math.floor`, kept as a number like in JavaScript. -/
def mathFloor (q : ℚ) : ℚ := (⌊q⌋ : ℚ)

/-- Truncation toward zero, the rounding JavaScript `%` is built on. -/
def jsTrunc (q : ℚ) : ℚ := if q < 0 then (⌈q⌉ : ℚ) else (⌊q⌋ : ℚ)

/-- The JavaScript remainder `a % b` (sign of the dividend). -/
def jsRem (a b : ℚ) : ℚ := a - b * jsTrunc (a / b)

/-- Smallest exponent `k` with `den ∣ 10 ^ k`; for a reduced fraction whose
denominator divides a power of ten this is the number of decimal digits
needed for the fraction part. -/
def decExp (den : ℕ) : ℕ :=
  (((List.range (den + 1)).find? (fun k => den ∣ 10 ^ k)).getD den)

/-- JS `String(q)` for a finite number.  Integers print without a point; a
non-integer (always a terminating decimal here, since every finite value
these cards produce comes from decimal literals and ring operations on
them) prints sign, integer part, point, fraction digits. -/
def jsNumToString (q : ℚ) : String :=
  if q.den = 1 then toString q.num
  else
    let k := decExp q.den
    let scaled := q.num.natAbs * 10 ^ k / q.den
    let ds := toString scaled
    let padded := String.mk (List.replicate (k + 1 - ds.length) '0') ++ ds
    (if q.num < 0 then "-" else "")
      ++ (padded.dropRight k) ++ "." ++ (padded.takeRight k)

/-- JS `s.padStart(n, "0")`. -/
def jsPadStart (s : String) (n : ℕ) : String :=
  String.mk (List.replicate (n - s.length) '0') ++ s

/-- JS `x.toFixed(1)`: round to one decimal digit, ties toward `+∞` as the
ECMAScript `toFixed` algorithm picks the larger candidate. -/
def jsToFixed1 (q : ℚ) : String :=
  let n : ℤ := ⌊q * 10 + 1 / 2⌋
  (if n < 0 then "-" else "") ++ toString (n.natAbs / 10) ++ "." ++ toString (n.natAbs % 10)

/-! ## `k_printer_card.js` — module-level helpers (source lines 5–33) -/

/-- Line 5: `const clamp = (v, a, b) => Math.min(Math.max(v, a), b)`. -/
def clamp (v a b : ℚ) : ℚ := min (max v a) b

/-- Line 6: `const mdi = (name) => "mdi:" + name` (template literal). -/
def mdi (name : String) : String := "mdi:" ++ name

/-- Line 7: `const normStr = (x) => String(x ?? "").toLowerCase()`.
`String(·)` of the nullish-coalesced value: `undefined`/`null` become the
empty string, a string stays itself, a number and a boolean print as by
`String(·)`. -/
def normStr (x : JSVal) : String :=
  jsToLowerCase (match x with
    | .undef => ""
    | .null => ""
    | .str s => s
    | .num none => "NaN"
    | .num (some q) => jsNumToString q
    | .bool b => if b then "true" else "false")

/-- Lines 9–15: `fmtTimeLeft(seconds)`. -/
def fmtTimeLeft (seconds : JSVal) : String :=
  let s := jsOrNum (jsToNumber seconds) 0
  let h := mathFloor (s / 3600)
  let m := mathFloor (jsRem s 3600 / 60)
  let sec := jsRem s 60
  if h > 0 then
    jsNumToString h ++ ":" ++ jsPadStart (jsNumToString m) 2
      ++ ":" ++ jsPadStart (jsNumToString sec) 2
  else if m > 0 then
    jsNumToString m ++ ":" ++ jsPadStart (jsNumToString sec) 2
  else
    jsNumToString sec ++ "s"

/-- Lines 16–23: `computeIcon(status)`. -/
def computeIcon (status : JSVal) : String :=
  let st := normStr status
  if ["off", "unknown", "stopped"].contains st then mdi "printer-3d-off"
  else if ["printing", "resuming", "pausing", "paused"].contains st then mdi "printer-3d-nozzle"
  else if st = "error" then mdi "close-octagon"
  else if st = "self-testing" then mdi "cogs"
  else mdi "printer-3d"

/-- Lines 24–33: `computeColor(status)`. -/
def computeColor (status : JSVal) : String :=
  let st := normStr status
  if ["off", "unknown", "stopped"].contains st then "var(--secondary-text-color)"
  else if ["paused", "pausing"].contains st then "#fc6d09"
  else if st = "error" then "var(--error-color)"
  else if ["printing", "resuming", "processing"].contains st then "var(--primary-color)"
  else if ["idle", "completed"].contains st then "var(--success-color, #4caf50)"
  else if st = "self-testing" then "var(--info-color, #2196f3)"
  else "var(--secondary-text-color)"

/-! ## `k_printer_card.js` — the `KPrinterCard` element -/

/-- The card configuration after `setConfig` merged the stub config
(lines 36–44): every key is present, defaulting to the empty string
(`name` to "3D Printer" only later, at line 219). -/
structure Cfg where
  name : String := "3D Printer"
  camera : String := ""
  status : String := ""
  progress : String := ""
  time_left : String := ""
  nozzle : String := ""
  bed : String := ""
  box : String := ""
  layer : String := ""
  total_layers : String := ""
  light : String := ""
  pause_btn : String := ""
  resume_btn : String := ""
  stop_btn : String := ""
deriving DecidableEq, Repr

/-- The slice of the hass object the card reads: `hass.states[eid].state`,
as a partial map from entity id to state string (`none` = entity absent). -/
structure Hass where
  states : String → Option String

/-- Everything `KPrinterCard._update` (lines 214–269) writes into the DOM,
together with the intermediate values (`status`, `pct`, `timeLeft`) it
computes at lines 220–222.  `…Hidden` are the `hidden` attributes of the
chips, `lightOnClass`/`lightOffClass` the toggled CSS classes. -/
structure RenderState where
  name : String
  status : String
  pct : ℚ
  timeLeft : ℚ
  secondary : String
  icon : String
  iconColor : String
  ringPct : String
  ringColor : String
  pauseHidden : Bool
  resumeHidden : Bool
  stopHidden : Bool
  lightHidden : Bool
  lightOnClass : Bool
  lightOffClass : Bool
  nozzleText : String
  bedText : String
  boxText : String
  timeText : String
  layersText : String
deriving DecidableEq, Repr

namespace KCard

/-- Method `KPrinterCard._update` (lines 214–269) as a pure function from the
configuration and the (possibly absent) hass object to the rendered
state.  `g` is the optional-chaining read `this._hass?.states?.[eid]?.state`
and `gNum` is `Number(g(eid))` (line 216–217). -/
def update (cfg : Cfg) (hass : Option Hass) : RenderState :=
  let g : String → Option String := fun eid => hass.bind (fun h => h.states eid)
  let gNum : String → Option ℚ := fun eid =>
    match g eid with
    | none => none
    | some s => jsNumber s
  let name := jsOrStr cfg.name "3D Printer"
  let status := (g cfg.status).getD "unknown"
  let pct := clamp (match gNum cfg.progress with | some v => v | none => 0) 0 100
  let timeLeft := jsOrNum (gNum cfg.time_left) 0
  let nozzle := gNum cfg.nozzle
  let bed := gNum cfg.bed
  let box := gNum cfg.box
  let layer := (g cfg.layer).getD ""
  let totalLayers := (g cfg.total_layers).getD ""
  let lightState := g cfg.light
  let st := normStr (.str status)
  let isPrinting := ["printing", "resuming", "pausing"].contains st
  let isPaused := st == "paused"
  let showStop := isPrinting || isPaused || (st == "self-testing")
  let showLight := !(["off", "unknown"].contains st)
  let proper := if status = "" then "Unknown"
    else jsToUpperCase (status.take 1) ++ status.drop 1
  { name := name
    status := status
    pct := pct
    timeLeft := timeLeft
    secondary := if isPrinting || isPaused then jsNumToString pct ++ "% " ++ proper else proper
    icon := computeIcon (.str status)
    iconColor := computeColor (.str status)
    ringPct := if isPrinting || isPaused then jsNumToString pct ++ "%" else "0%"
    ringColor := computeColor (.str status)
    pauseHidden := !isPrinting
    resumeHidden := !isPaused
    stopHidden := !showStop
    lightHidden := !showLight
    lightOnClass := lightState == some "on"
    lightOffClass := !(lightState == some "on")
    nozzleText := match nozzle with
      | some q => jsToFixed1 q ++ " °C"
      | none => "—"
    bedText := match bed with
      | some q => jsToFixed1 q ++ " °C"
      | none => "—"
    boxText := match box with
      | some q => jsToFixed1 q ++ " °C"
      | none => "—"
    timeText := fmtTimeLeft (.num (some timeLeft))
    layersText := jsOrStr layer "?" ++ "/" ++ jsOrStr totalLayers "?" }

/-- One `hass.callService(domain, service, { entity_id })` invocation. -/
structure ServiceCall where
  domain : String
  service : String
  entity : String
deriving DecidableEq, Repr

/-- The domain extraction `(eid.split(".")[0] || "").toLowerCase()`
at line 206.  The first element of `eid.split(".")` is the prefix of `eid`
up to the first dot (the whole string when there is no dot, the empty
string when `eid` is empty or starts with a dot). -/
def jsDomain (eid : String) : String :=
  jsToLowerCase (jsOrStr (String.mk (eid.data.takeWhile (fun c => c ≠ '.'))) "")

/-- Method `KPrinterCard._toggleEntity` (lines 203–212), returning the list of
service calls it dispatches. -/
def toggleEntity (hass : Option Hass) (eid : String) : List ServiceCall :=
  match hass with
  | none => []
  | some h =>
      if eid = "" then []
      else
        let st := h.states eid
        let domain := jsDomain eid
        if domain = "switch" ∨ domain = "light" then
          [⟨domain, if st = some "on" then "turn_off" else "turn_on", eid⟩]
        else
          [⟨"homeassistant", "toggle", eid⟩]

/-- The header click handler (lines 187–190): the entity that more-info is
opened for, `none` when no entity is configured or hass is absent. -/
def moreInfoTarget (cfg : Cfg) (hassPresent : Bool) : Option String :=
  let eid := jsOrStr (jsOrStr cfg.camera cfg.status) cfg.progress
  if eid ≠ "" ∧ hassPresent then some eid else none

end KCard

/-! ## Chip visibility of the two composite (mushroom) card variants

A mushroom conditional chip shows its chip exactly when its conditions
hold; a `condition: state` holds when the entity's state equals the given
string, and an `or` condition when one of its nested conditions holds.
The entity state is `Option String` (`none` = entity absent). -/

/-- Evaluation of one mushroom `condition: state` entry. -/
def stateIs (st : Option String) (s : String) : Bool := st == some s

namespace K1CCardV1

/-- PAUSE chip conditions of `custom_components/frontend/k1c_printer_card.js`
(lines 113–133): or of `printing`, `resuming`, `pausing`. -/
def pauseChipVisible (st : Option String) : Bool :=
  stateIs st "printing" || stateIs st "resuming" || stateIs st "pausing"

/-- RESUME chip condition (lines 136–149): `paused`. -/
def resumeChipVisible (st : Option String) : Bool :=
  stateIs st "paused"

/-- STOP chip conditions (lines 152–174): or of `printing`, `resuming`,
`pausing`, `paused` — and nothing else. -/
def stopChipVisible (st : Option String) : Bool :=
  stateIs st "printing" || stateIs st "resuming" || stateIs st "pausing" || stateIs st "paused"

end K1CCardV1

namespace K1CCardV2

/-- PAUSE chip condition of the second composite card revision
(`src/unnamed/part_000`, lines 110–114): `printing`. -/
def pauseChipVisible (st : Option String) : Bool :=
  stateIs st "printing"

/-- RESUME chip condition (lines 116–120): `paused`. -/
def resumeChipVisible (st : Option String) : Bool :=
  stateIs st "paused"

/-- STOP chip conditions (lines 121–130): or of `printing`, `paused`,
`self-testing`. -/
def stopChipVisible (st : Option String) : Bool :=
  stateIs st "printing" || stateIs st "paused" || stateIs st "self-testing"

end K1CCardV2

/-! ## The State Normalizer, modelled from the spec -/

/-- Modelled from the spec: the Status enum of the Device State (spec §3).
The integration backend that defines it is not among the shipped source
files (only the frontend cards and the documentation are). -/
inductive PrinterStatus where
  | idle | printing | paused | pausing | resuming
  | stopped | completed | error | selfTesting | off | unknown
deriving DecidableEq, Repr

/-- Modelled from the spec: one raw Telemetry Snapshot (spec §3) restricted
to the fields the normalization rules name; `none` marks an absent field. -/
structure RawSnapshot where
  status : Option String := none
  progress : Option ℚ := none
  time_left : Option ℚ := none
  nozzle : Option ℚ := none
  bed : Option ℚ := none
  box : Option ℚ := none
  light : Option Bool := none
deriving DecidableEq, Repr

/-- Modelled from the spec: the Feature Set capability flags (spec §3). -/
structure FeatureSet where
  has_box_temperature : Bool := false
  box_temperature_controllable : Bool := false
  has_light : Bool := false
deriving DecidableEq, Repr

/-- Modelled from the spec: the normalized Device State (spec §3) on the
fields the power-off rule names; the box temperature is `none` when the
feature is absent. -/
structure DeviceState where
  status : PrinterStatus
  progress : ℚ
  time_left : ℚ
  nozzle : ℚ
  bed : ℚ
  box : Option ℚ
  light_on : Bool
deriving DecidableEq, Repr

/-- Modelled from the spec: case-insensitive status-string matching
(spec §4.3), with unrecognized strings normalizing to `unknown`, never to
`idle` or `error`. -/
def parseStatus (s : String) : PrinterStatus :=
  match jsToLowerCase s with
  | "idle" => .idle
  | "printing" => .printing
  | "paused" => .paused
  | "pausing" => .pausing
  | "resuming" => .resuming
  | "stopped" => .stopped
  | "completed" => .completed
  | "error" => .error
  | "self-testing" => .selfTesting
  | "off" => .off
  | _ => .unknown

/-- Modelled from the spec: `normalize(snapshot, features, power_switch_state?)`
of the State Normalizer (spec §4.3), which is not among the shipped source
files (hence the `StateNormalizer` namespace, since Lean's root namespace
already takes the name `normalize`).  `power = none` means no power switch
is bound; `some false` means a
bound switch reports off.  Rules followed: numeric fields default to 0 and
the status to `unknown` when absent; a field outside the features (the box
temperature) is ignored; a bound switch reporting off forces status=`off`,
progress=0 and all temperatures=0 regardless of the snapshot. -/
def StateNormalizer.normalize (snap : RawSnapshot) (features : FeatureSet) (power : Option Bool) : DeviceState :=
  if power = some false then
    { status := .off
      progress := 0
      time_left := 0
      nozzle := 0
      bed := 0
      box := if features.has_box_temperature then some 0 else none
      light_on := false }
  else
    { status := match snap.status with
        | none => .unknown
        | some s => parseStatus s
      progress := clamp (snap.progress.getD 0) 0 100
      time_left := max (snap.time_left.getD 0) 0
      nozzle := snap.nozzle.getD 0
      bed := snap.bed.getD 0
      box := if features.has_box_temperature then some (snap.box.getD 0) else none
      light_on := snap.light.getD false }

/-! ## Helper lemmas -/

theorem char_toNat_ofNat_valid (n : ℕ) (h : n.isValidChar) : (Char.ofNat n).toNat = n := by
  simp only [Char.ofNat, h, Char.ofNatAux, dif_pos]
  simp [Char.toNat, UInt32.toNat, BitVec.toNat_ofNatLt]

theorem jsCharToLower_idem (c : Char) : jsCharToLower (jsCharToLower c) = jsCharToLower c := by
  unfold jsCharToLower
  by_cases h : 65 ≤ c.toNat ∧ c.toNat ≤ 90
  · rw [if_pos h]
    have hv : (c.toNat + 32).isValidChar := Or.inl (by omega)
    have ht : (Char.ofNat (c.toNat + 32)).toNat = c.toNat + 32 :=
      char_toNat_ofNat_valid _ hv
    rw [if_neg]
    rw [ht]
    omega
  · rw [if_neg h, if_neg h]

theorem jsToLowerCase_idem (s : String) : jsToLowerCase (jsToLowerCase s) = jsToLowerCase s := by
  unfold jsToLowerCase
  simp only [List.map_map]
  congr 1
  exact List.map_congr_left (fun c _ => jsCharToLower_idem c)

theorem normStr_str (s : String) : normStr (.str s) = jsToLowerCase s := rfl

theorem jsOrNum_some_self (v : ℚ) : jsOrNum (some v) 0 = v := by
  unfold jsOrNum
  split <;> simp_all

theorem ratFloor_natCast_div (a b : ℕ) (hb : 0 < b) :
    ⌊(a : ℚ) / (b : ℚ)⌋ = ((a / b : ℕ) : ℤ) := by
  have hmod := Nat.mod_lt a hb
  have hbq : (0 : ℚ) < (b : ℚ) := by positivity
  rw [Int.floor_eq_iff]
  constructor
  · rw [le_div_iff₀ hbq]
    exact_mod_cast Nat.div_mul_le_self a b
  · rw [div_lt_iff₀ hbq]
    have hlt : a < (a / b + 1) * b := by
      calc a = b * (a / b) + a % b := (Nat.div_add_mod a b).symm
        _ < b * (a / b) + b := by omega
        _ = (a / b + 1) * b := by ring
    exact_mod_cast hlt

theorem mathFloor_natCast_div (a b : ℕ) (hb : 0 < b) :
    mathFloor ((a : ℚ) / (b : ℚ)) = ((a / b : ℕ) : ℚ) := by
  unfold mathFloor
  rw [ratFloor_natCast_div a b hb]
  push_cast
  norm_cast

theorem jsRem_natCast (a b : ℕ) (hb : 0 < b) :
    jsRem (a : ℚ) (b : ℚ) = ((a % b : ℕ) : ℚ) := by
  unfold jsRem jsTrunc
  rw [if_neg (not_lt.2 (by positivity))]
  have hfl : (⌊(a : ℚ) / (b : ℚ)⌋ : ℚ) = ((a / b : ℕ) : ℚ) := by
    rw [ratFloor_natCast_div a b hb]
    push_cast
    norm_cast
  rw [hfl]
  have key : (b : ℚ) * ((a / b : ℕ) : ℚ) + ((a % b : ℕ) : ℚ) = (a : ℚ) := by
    exact_mod_cast Nat.div_add_mod a b
  linarith

theorem jsNumToString_natCast (n : ℕ) : jsNumToString ((n : ℕ) : ℚ) = toString n := by
  unfold jsNumToString
  rw [if_pos (Rat.den_natCast n)]
  rw [Rat.num_natCast]
  rfl

theorem mathFloor_div_3600 (s : ℕ) : mathFloor ((s : ℚ) / 3600) = ((s / 3600 : ℕ) : ℚ) := by
  have h := mathFloor_natCast_div s 3600 (by norm_num)
  simpa using h

theorem mathFloor_div_60 (s : ℕ) : mathFloor ((s : ℚ) / 60) = ((s / 60 : ℕ) : ℚ) := by
  have h := mathFloor_natCast_div s 60 (by norm_num)
  simpa using h

theorem jsRem_natCast_3600 (s : ℕ) : jsRem (s : ℚ) 3600 = ((s % 3600 : ℕ) : ℚ) := by
  have h := jsRem_natCast s 3600 (by norm_num)
  simpa using h

theorem jsRem_natCast_60 (s : ℕ) : jsRem (s : ℚ) 60 = ((s % 60 : ℕ) : ℚ) := by
  have h := jsRem_natCast s 60 (by norm_num)
  simpa using h

/-- Case analysis of `fmtTimeLeft` on a nonnegative integer number of
seconds: the hour branch when `3600 ≤ s`, the minute branch when
`60 ≤ s < 3600`, and the bare-seconds branch when `s < 60`. -/
theorem fmtTimeLeft_natCast_cases (s : ℕ) :
    (3600 ≤ s →
      fmtTimeLeft (.num (some (s : ℚ)))
        = toString (s / 3600) ++ ":" ++ jsPadStart (toString (s % 3600 / 60)) 2
            ++ ":" ++ jsPadStart (toString (s % 60)) 2)
    ∧ (60 ≤ s → s < 3600 →
      fmtTimeLeft (.num (some (s : ℚ)))
        = toString (s / 60) ++ ":" ++ jsPadStart (toString (s % 60)) 2)
    ∧ (s < 60 → fmtTimeLeft (.num (some (s : ℚ))) = toString s ++ "s") := by
  have hbody : fmtTimeLeft (.num (some (s : ℚ)))
      = if ((s / 3600 : ℕ) : ℚ) > 0 then
          jsNumToString ((s / 3600 : ℕ) : ℚ) ++ ":"
            ++ jsPadStart (jsNumToString ((s % 3600 / 60 : ℕ) : ℚ)) 2
            ++ ":" ++ jsPadStart (jsNumToString ((s % 60 : ℕ) : ℚ)) 2
        else if ((s % 3600 / 60 : ℕ) : ℚ) > 0 then
          jsNumToString ((s % 3600 / 60 : ℕ) : ℚ) ++ ":"
            ++ jsPadStart (jsNumToString ((s % 60 : ℕ) : ℚ)) 2
        else jsNumToString ((s % 60 : ℕ) : ℚ) ++ "s" := by
    simp only [fmtTimeLeft, jsToNumber, jsOrNum_some_self, jsRem_natCast_3600,
      jsRem_natCast_60, mathFloor_div_3600, mathFloor_div_60]
  rw [hbody]
  simp only [jsNumToString_natCast]
  refine ⟨fun h1 => ?_, fun h2a h2b => ?_, fun h3 => ?_⟩
  · rw [if_pos (by exact_mod_cast (by omega : 0 < s / 3600))]
  · have hz : s / 3600 = 0 := by omega
    have hm : s % 3600 / 60 = s / 60 := by omega
    have hpos : 0 < s / 60 := by omega
    rw [hm, hz]
    rw [if_neg (by norm_num), if_pos (by exact_mod_cast hpos)]
  · have hz : s / 3600 = 0 := by omega
    have hm : s % 3600 / 60 = 0 := by omega
    have hs : s % 60 = s := by omega
    rw [hz, hm, hs]
    rw [if_neg (by norm_num), if_neg (by norm_num)]

theorem fmtTimeLeft_zero : fmtTimeLeft (.num (some 0)) = "0s" := by
  have hc : ((0 : ℕ) : ℚ) = (0 : ℚ) := by norm_num
  have h := (fmtTimeLeft_natCast_cases 0).2.2 (by norm_num)
  rw [hc] at h
  rw [h]
  decide

theorem fmtTimeLeft_congr (x y : JSVal)
    (h : jsOrNum (jsToNumber x) 0 = jsOrNum (jsToNumber y) 0) :
    fmtTimeLeft x = fmtTimeLeft y := by
  unfold fmtTimeLeft
  rw [h]

/-! ## The claims -/

/-- C1: for every telemetry snapshot, if a power switch is bound and
reports off, the normalized Device State has status=off, progress=0 and
all temperatures=0 (the box temperature is absent or 0 depending on the
feature set), regardless of the status, progress and temperature values
in the raw snapshot. -/
theorem power_switch_off_forces_off_state (snap : RawSnapshot) (features : FeatureSet) :
    (StateNormalizer.normalize snap features (some false)).status = PrinterStatus.off
    ∧ (StateNormalizer.normalize snap features (some false)).progress = 0
    ∧ (StateNormalizer.normalize snap features (some false)).time_left = 0
    ∧ (StateNormalizer.normalize snap features (some false)).nozzle = 0
    ∧ (StateNormalizer.normalize snap features (some false)).bed = 0
    ∧ ((StateNormalizer.normalize snap features (some false)).box = none
        ∨ (StateNormalizer.normalize snap features (some false)).box = some 0)
    ∧ (StateNormalizer.normalize snap features (some false)).light_on = false := by
  unfold StateNormalizer.normalize
  rw [if_pos rfl]
  refine ⟨rfl, rfl, rfl, rfl, rfl, ?_, rfl⟩
  by_cases h : features.has_box_temperature <;> simp [h]

/-- C2: when the status entity reports `self-testing`, the dependency-free
`KPrinterCard` and the `K1CCardV2` composite card show the stop control,
but the `K1CCardV1` composite card (`custom_components/frontend/`) hides
it — its STOP chip conditions are only printing/resuming/pausing/paused —
so the claim fails for that variant, against the repository's own
documentation that stop is available during calibration. -/
theorem stop_chip_during_self_testing_by_variant :
    (KCard.update { status := "sensor.k1c_print_status" }
        (some ⟨fun e => if e = "sensor.k1c_print_status" then some "self-testing" else none⟩)).stopHidden
      = false
    ∧ K1CCardV2.stopChipVisible (some "self-testing") = true
    ∧ K1CCardV1.stopChipVisible (some "self-testing") = false :=
  ⟨by decide, by decide, by decide⟩

/-- C3: status handling of the card helpers is case-insensitive — for
every status string `s`, `computeIcon` and `computeColor` agree on `s` and
its lowercasing; in particular "PRINTING", "Printing" and "printing" give
the same icon and color, and an unrecognized string like "frobnicating"
falls through to the default icon and color. -/
theorem computeIcon_computeColor_case_insensitive :
    (∀ s : String, computeIcon (.str s) = computeIcon (.str (jsToLowerCase s))
        ∧ computeColor (.str s) = computeColor (.str (jsToLowerCase s)))
    ∧ computeIcon (.str "PRINTING") = computeIcon (.str "printing")
    ∧ computeIcon (.str "Printing") = computeIcon (.str "printing")
    ∧ computeColor (.str "PRINTING") = computeColor (.str "printing")
    ∧ computeColor (.str "Printing") = computeColor (.str "printing")
    ∧ computeIcon (.str "frobnicating") = mdi "printer-3d"
    ∧ computeColor (.str "frobnicating") = "var(--secondary-text-color)" := by
  refine ⟨fun s => ⟨?_, ?_⟩, by decide, by decide, by decide, by decide, by decide, by decide⟩
  · unfold computeIcon
    rw [normStr_str, normStr_str, jsToLowerCase_idem]
  · unfold computeColor
    rw [normStr_str, normStr_str, jsToLowerCase_idem]

/-- C4: absent entities take safe defaults in `KPrinterCard._update` — a
missing status entity yields the string "unknown" (never "idle"), a
missing progress entity yields percentage 0, and a missing time-left
entity yields 0 seconds displayed as "0s"; the update function is total,
so rendering completes on every input. -/
theorem update_missing_fields_safe_defaults (cfg : Cfg) (hass : Option Hass) :
    (hass.bind (fun h => h.states cfg.status) = none →
      (KCard.update cfg hass).status = "unknown" ∧ (KCard.update cfg hass).status ≠ "idle")
    ∧ (hass.bind (fun h => h.states cfg.progress) = none → (KCard.update cfg hass).pct = 0)
    ∧ (hass.bind (fun h => h.states cfg.time_left) = none →
      (KCard.update cfg hass).timeLeft = 0 ∧ (KCard.update cfg hass).timeText = "0s") := by
  refine ⟨fun h => ?_, fun h => ?_, fun h => ?_⟩
  · simp [KCard.update, h]
  · simp only [KCard.update, h]
    norm_num [clamp]
  · constructor
    · simp only [KCard.update, h]
      simp [jsOrNum]
    · simp only [KCard.update, h]
      simp only [jsOrNum]
      exact fmtTimeLeft_zero

theorem update_missing_fields_safe_defaults_witness :
    (KCard.update {} none).status = "unknown"
    ∧ (KCard.update {} none).pct = 0
    ∧ (KCard.update {} none).timeText = "0s" :=
  ⟨((update_missing_fields_safe_defaults {} none).1 rfl).1,
    (update_missing_fields_safe_defaults {} none).2.1 rfl,
    ((update_missing_fields_safe_defaults {} none).2.2 rfl).2⟩

/-- C5: the displayed progress percentage is always within 0–100 — it is
the raw parsed progress value clamped to that interval, with a non-finite
raw value mapped to 0, and the progress ring receives either that
percentage or the constant "0%". -/
theorem update_progress_clamped (cfg : Cfg) (hass : Option Hass) :
    0 ≤ (KCard.update cfg hass).pct
    ∧ (KCard.update cfg hass).pct ≤ 100
    ∧ (∀ q : ℚ, (hass.bind (fun h => h.states cfg.progress)).bind jsNumber = some q →
        (KCard.update cfg hass).pct = clamp q 0 100)
    ∧ ((hass.bind (fun h => h.states cfg.progress)).bind jsNumber = none →
        (KCard.update cfg hass).pct = 0)
    ∧ ((KCard.update cfg hass).ringPct = jsNumToString (KCard.update cfg hass).pct ++ "%"
        ∨ (KCard.update cfg hass).ringPct = "0%") := by
  refine ⟨?_, ?_, fun q hq => ?_, fun hq => ?_, ?_⟩
  · simp only [KCard.update]
    exact le_min (le_max_right _ _) (by norm_num)
  · simp only [KCard.update]
    exact min_le_right _ _
  · have hm : (match hass.bind (fun h => h.states cfg.progress) with
        | none => none
        | some s => jsNumber s) = some q := by
      rw [← hq]
      cases hass.bind (fun h => h.states cfg.progress) <;> rfl
    simp only [KCard.update, hm]
  · have hm : (match hass.bind (fun h => h.states cfg.progress) with
        | none => none
        | some s => jsNumber s) = (none : Option ℚ) := by
      rw [← hq]
      cases hass.bind (fun h => h.states cfg.progress) <;> rfl
    simp only [KCard.update, hm]
    norm_num [clamp]
  · simp only [KCard.update]
    split
    · left
      rfl
    · right
      rfl

theorem update_progress_clamped_witness :
    0 ≤ (KCard.update { progress := "sensor.p" }
        (some ⟨fun e => if e = "sensor.p" then some "150" else none⟩)).pct
    ∧ (KCard.update { progress := "sensor.p" }
        (some ⟨fun e => if e = "sensor.p" then some "150" else none⟩)).pct
      = clamp 150 0 100 :=
  ⟨(update_progress_clamped { progress := "sensor.p" }
      (some ⟨fun e => if e = "sensor.p" then some "150" else none⟩)).1,
    (update_progress_clamped { progress := "sensor.p" }
      (some ⟨fun e => if e = "sensor.p" then some "150" else none⟩)).2.2.1 150
      (by with_unfolding_all rfl)⟩

/-- C6: `fmtTimeLeft` consumes seconds and renders h:mm:ss — for every
nonnegative integer `s`, it returns the hours followed by two-digit
zero-padded minutes and seconds when `s ≥ 3600`, the minutes followed by
two-digit zero-padded seconds when `60 ≤ s < 3600`, and the bare seconds
suffixed with "s" when `s < 60`. -/
theorem fmtTimeLeft_renders_h_mm_ss (s : ℕ) :
    (3600 ≤ s →
      fmtTimeLeft (.num (some (s : ℚ)))
        = toString (s / 3600) ++ ":" ++ jsPadStart (toString (s % 3600 / 60)) 2
            ++ ":" ++ jsPadStart (toString (s % 60)) 2)
    ∧ (60 ≤ s → s < 3600 →
      fmtTimeLeft (.num (some (s : ℚ)))
        = toString (s / 60) ++ ":" ++ jsPadStart (toString (s % 60)) 2)
    ∧ (s < 60 → fmtTimeLeft (.num (some (s : ℚ))) = toString s ++ "s") :=
  fmtTimeLeft_natCast_cases s

theorem fmtTimeLeft_renders_h_mm_ss_witness :
    fmtTimeLeft (.num (some ((3700 : ℕ) : ℚ)))
      = toString (3700 / 3600) ++ ":" ++ jsPadStart (toString (3700 % 3600 / 60)) 2
          ++ ":" ++ jsPadStart (toString (3700 % 60)) 2
    ∧ fmtTimeLeft (.num (some ((100 : ℕ) : ℚ)))
      = toString (100 / 60) ++ ":" ++ jsPadStart (toString (100 % 60)) 2
    ∧ fmtTimeLeft (.num (some ((59 : ℕ) : ℚ))) = toString 59 ++ "s" :=
  ⟨(fmtTimeLeft_renders_h_mm_ss 3700).1 (by norm_num),
    (fmtTimeLeft_renders_h_mm_ss 100).2.1 (by norm_num) (by norm_num),
    (fmtTimeLeft_renders_h_mm_ss 59).2.2 (by norm_num)⟩

/-- C7: the pause control is never presented while the printer is already
paused — in all three card variants, a status of `paused` hides the pause
chip and shows the resume chip. -/
theorem paused_hides_pause_shows_resume (cfg : Cfg) (hass : Hass)
    (h : hass.states cfg.status = some "paused") :
    ((KCard.update cfg (some hass)).pauseHidden = true
      ∧ (KCard.update cfg (some hass)).resumeHidden = false)
    ∧ (K1CCardV1.pauseChipVisible (some "paused") = false
      ∧ K1CCardV1.resumeChipVisible (some "paused") = true)
    ∧ (K1CCardV2.pauseChipVisible (some "paused") = false
      ∧ K1CCardV2.resumeChipVisible (some "paused") = true) := by
  have hg : ((some hass).bind fun hh => hh.states cfg.status) = some "paused" := by
    simpa using h
  refine ⟨⟨?_, ?_⟩, ⟨by decide, by decide⟩, ⟨by decide, by decide⟩⟩
  · simp only [KCard.update, hg]
    decide
  · simp only [KCard.update, hg]
    decide

theorem paused_hides_pause_shows_resume_witness :
    (KCard.update { status := "sensor.s" }
        (some ⟨fun e => if e = "sensor.s" then some "paused" else none⟩)).pauseHidden = true
    ∧ (KCard.update { status := "sensor.s" }
        (some ⟨fun e => if e = "sensor.s" then some "paused" else none⟩)).resumeHidden = false :=
  (paused_hides_pause_shows_resume { status := "sensor.s" }
    ⟨fun e => if e = "sensor.s" then some "paused" else none⟩ (by decide)).1

/-- C8: the rendering helpers are total and never throw — `normStr` always
returns a lowercase string, `fmtTimeLeft` returns "0s" for `undefined`,
`null` and non-numeric strings, and any status not matched by an earlier
branch of `computeIcon` or `computeColor` maps to the defaults
"mdi:printer-3d" and "var(--secondary-text-color)". -/
theorem card_helpers_total_defaults :
    (∀ x : JSVal, jsToLowerCase (normStr x) = normStr x)
    ∧ fmtTimeLeft .undef = "0s"
    ∧ fmtTimeLeft .null = "0s"
    ∧ (∀ s : String, jsNumber s = none → fmtTimeLeft (.str s) = "0s")
    ∧ (∀ x : JSVal,
        normStr x ∉ ["off", "unknown", "stopped", "printing", "resuming", "pausing", "paused",
          "error", "self-testing"] →
        computeIcon x = mdi "printer-3d")
    ∧ (∀ x : JSVal,
        normStr x ∉ ["off", "unknown", "stopped", "paused", "pausing", "error", "printing",
          "resuming", "processing", "idle", "completed", "self-testing"] →
        computeColor x = "var(--secondary-text-color)") := by
  refine ⟨fun x => ?_, ?_, ?_, fun s hs => ?_, fun x hmem => ?_, fun x hmem => ?_⟩
  · unfold normStr
    exact jsToLowerCase_idem _
  · exact (fmtTimeLeft_congr .undef (.num (some 0)) (by simp [jsToNumber, jsOrNum])).trans
      fmtTimeLeft_zero
  · exact (fmtTimeLeft_congr .null (.num (some 0)) (by simp [jsToNumber, jsOrNum])).trans
      fmtTimeLeft_zero
  · exact (fmtTimeLeft_congr (.str s) (.num (some 0))
      (by simp [jsToNumber, jsOrNum, hs])).trans fmtTimeLeft_zero
  · obtain ⟨h1, h2, h3, h4, h5, h6, h7, h8, h9⟩ : normStr x ≠ "off" ∧ normStr x ≠ "unknown"
        ∧ normStr x ≠ "stopped" ∧ normStr x ≠ "printing" ∧ normStr x ≠ "resuming"
        ∧ normStr x ≠ "pausing" ∧ normStr x ≠ "paused" ∧ normStr x ≠ "error"
        ∧ normStr x ≠ "self-testing" := by
      simpa [not_or] using hmem
    simp [computeIcon, h1, h2, h3, h4, h5, h6, h7, h8, h9]
  · obtain ⟨h1, h2, h3, h4, h5, h6, h7, h8, h9, h10, h11, h12⟩ : normStr x ≠ "off"
        ∧ normStr x ≠ "unknown" ∧ normStr x ≠ "stopped" ∧ normStr x ≠ "paused"
        ∧ normStr x ≠ "pausing" ∧ normStr x ≠ "error" ∧ normStr x ≠ "printing"
        ∧ normStr x ≠ "resuming" ∧ normStr x ≠ "processing" ∧ normStr x ≠ "idle"
        ∧ normStr x ≠ "completed" ∧ normStr x ≠ "self-testing" := by
      simpa [not_or] using hmem
    simp [computeColor, h1, h2, h3, h4, h5, h6, h7, h8, h9, h10, h11, h12]

theorem card_helpers_total_defaults_witness :
    fmtTimeLeft (.str "abc") = "0s"
    ∧ computeIcon (.str "frobnicating-xyz") = mdi "printer-3d"
    ∧ computeColor (.str "frobnicating-xyz") = "var(--secondary-text-color)" :=
  ⟨card_helpers_total_defaults.2.2.2.1 "abc" (by decide),
    card_helpers_total_defaults.2.2.2.2.1 (.str "frobnicating-xyz") (by decide),
    card_helpers_total_defaults.2.2.2.2.2 (.str "frobnicating-xyz") (by decide)⟩

/-- C9: `_toggleEntity` dispatches exactly one correct service call — with
hass present and a non-empty entity id, a `switch` or `light` domain gets
that domain's `turn_off` exactly when the entity's state is "on" and
`turn_on` otherwise, any other domain gets `homeassistant.toggle`, and a
missing hass or empty entity id produces no call at all. -/
theorem toggleEntity_dispatch (h : Hass) (eid : String) :
    KCard.toggleEntity none eid = []
    ∧ KCard.toggleEntity (some h) "" = []
    ∧ (eid ≠ "" → (KCard.jsDomain eid = "switch" ∨ KCard.jsDomain eid = "light") →
        KCard.toggleEntity (some h) eid
          = [⟨KCard.jsDomain eid,
              if h.states eid = some "on" then "turn_off" else "turn_on", eid⟩])
    ∧ (eid ≠ "" → ¬(KCard.jsDomain eid = "switch" ∨ KCard.jsDomain eid = "light") →
        KCard.toggleEntity (some h) eid = [⟨"homeassistant", "toggle", eid⟩]) := by
  refine ⟨rfl, by simp [KCard.toggleEntity], fun hne hdom => ?_, fun hne hdom => ?_⟩
  · simp only [KCard.toggleEntity]
    rw [if_neg hne, if_pos hdom]
  · simp only [KCard.toggleEntity]
    rw [if_neg hne, if_neg hdom]

theorem toggleEntity_dispatch_witness :
    KCard.toggleEntity none "switch.l" = []
    ∧ KCard.toggleEntity (some ⟨fun e => if e = "switch.l" then some "on" else none⟩) "" = []
    ∧ KCard.toggleEntity (some ⟨fun e => if e = "switch.l" then some "on" else none⟩) "switch.l"
      = [⟨KCard.jsDomain "switch.l",
          if (⟨fun e => if e = "switch.l" then some "on" else none⟩ : Hass).states "switch.l"
              = some "on" then "turn_off" else "turn_on", "switch.l"⟩]
    ∧ KCard.toggleEntity (some ⟨fun e => if e = "switch.l" then some "on" else none⟩) "fan.x"
      = [⟨"homeassistant", "toggle", "fan.x"⟩] :=
  ⟨(toggleEntity_dispatch ⟨fun e => if e = "switch.l" then some "on" else none⟩ "switch.l").1,
    (toggleEntity_dispatch ⟨fun e => if e = "switch.l" then some "on" else none⟩ "switch.l").2.1,
    (toggleEntity_dispatch ⟨fun e => if e = "switch.l" then some "on" else none⟩ "switch.l").2.2.1
      (by decide) (Or.inl (by decide)),
    (toggleEntity_dispatch ⟨fun e => if e = "switch.l" then some "on" else none⟩ "fan.x").2.2.2
      (by decide) (by decide)⟩

/-- C10: the header tap target resolves its more-info entity by the fixed
fallback chain camera, then status, then progress; when all three are
empty or hass is absent, no more-info is opened. -/
theorem moreInfoTarget_fallback_chain (cfg : Cfg) :
    (cfg.camera ≠ "" → KCard.moreInfoTarget cfg true = some cfg.camera)
    ∧ (cfg.camera = "" → cfg.status ≠ "" → KCard.moreInfoTarget cfg true = some cfg.status)
    ∧ (cfg.camera = "" → cfg.status = "" → cfg.progress ≠ "" →
        KCard.moreInfoTarget cfg true = some cfg.progress)
    ∧ (cfg.camera = "" → cfg.status = "" → cfg.progress = "" →
        KCard.moreInfoTarget cfg true = none)
    ∧ KCard.moreInfoTarget cfg false = none := by
  refine ⟨fun h1 => ?_, fun h1 h2 => ?_, fun h1 h2 h3 => ?_, fun h1 h2 h3 => ?_, ?_⟩
  · simp [KCard.moreInfoTarget, jsOrStr, h1]
  · simp [KCard.moreInfoTarget, jsOrStr, h1, h2]
  · simp [KCard.moreInfoTarget, jsOrStr, h1, h2, h3]
  · simp [KCard.moreInfoTarget, jsOrStr, h1, h2, h3]
  · simp [KCard.moreInfoTarget]

theorem moreInfoTarget_fallback_chain_witness :
    KCard.moreInfoTarget { camera := "camera.c", status := "sensor.s", progress := "sensor.p" } true
      = some "camera.c"
    ∧ KCard.moreInfoTarget { status := "sensor.s", progress := "sensor.p" } true = some "sensor.s"
    ∧ KCard.moreInfoTarget { progress := "sensor.p" } true = some "sensor.p"
    ∧ KCard.moreInfoTarget {} true = none
    ∧ KCard.moreInfoTarget { camera := "camera.c" } false = none :=
  ⟨(moreInfoTarget_fallback_chain
      { camera := "camera.c", status := "sensor.s", progress := "sensor.p" }).1 (by decide),
    (moreInfoTarget_fallback_chain { status := "sensor.s", progress := "sensor.p" }).2.1
      rfl (by decide),
    (moreInfoTarget_fallback_chain { progress := "sensor.p" }).2.2.1 rfl rfl (by decide),
    (moreInfoTarget_fallback_chain {}).2.2.2.1 rfl rfl rfl,
    (moreInfoTarget_fallback_chain { camera := "camera.c" }).2.2.2.2⟩
